import Mathlib

/-
Verification of the KDA asset-allocation strategy core
(Alpha/LongOnlyMomentumAlphaCreation.py, Portfolio/OptimizationPortfolioConstruction.py,
OptimizerModules/optimizer.py).

Modelling conventions:
- QuantConnect Symbol objects are modelled as natural numbers.
- Python float arithmetic is modelled over ℚ wherever the code uses only
  field operations, and over ℝ where square roots / logs are involved
  (numpy sqrt of a negative number yields NaN; this is modelled with
  Option ℝ where it matters, `none` standing for NaN).
- pandas Series are modelled as Lists, DataFrames as families of columns.
-/

namespace KDA

/-- pandas Series.tail(n) / DataFrame.tail(n): the last `n` elements of a
series (the whole series when it is shorter than `n`). -/
def pdTail {α : Type} (n : ℕ) (xs : List α) : List α := xs.drop (xs.length - n)

namespace AlphaModel

/-- Alpha/LongOnlyMomentumAlphaCreation.py lines 217-228,
`SymbolData.CalculateMomentumScore`: given the 1-day return series,
compound the 21/63/126/252-day tails (`tail(k).add(1).prod() - 1`) and
combine them with weights 12/4/2/1. -/
def CalculateMomentumScore (returnSeries : List ℚ) : ℚ :=
  let cumRet1 := ((pdTail 21 returnSeries).map (fun r => r + 1)).prod - 1
  let cumRet3 := ((pdTail 63 returnSeries).map (fun r => r + 1)).prod - 1
  let cumRet6 := ((pdTail 126 returnSeries).map (fun r => r + 1)).prod - 1
  let cumRet12 := ((pdTail 252 returnSeries).map (fun r => r + 1)).prod - 1
  cumRet1 * 12 + cumRet3 * 4 + cumRet6 * 2 + cumRet12

end AlphaModel

namespace PortfolioModel

/-- Portfolio/OptimizationPortfolioConstruction.py lines 284-295,
`SymbolData.CalculateMomentumScore` (textually the same computation as the
Alpha-model scorer). -/
def CalculateMomentumScore (returnSeries : List ℚ) : ℚ :=
  let cumRet1 := ((pdTail 21 returnSeries).map (fun r => r + 1)).prod - 1
  let cumRet3 := ((pdTail 63 returnSeries).map (fun r => r + 1)).prod - 1
  let cumRet6 := ((pdTail 126 returnSeries).map (fun r => r + 1)).prod - 1
  let cumRet12 := ((pdTail 252 returnSeries).map (fun r => r + 1)).prod - 1
  cumRet1 * 12 + cumRet3 * 4 + cumRet6 * 2 + cumRet12

end PortfolioModel

/-- Spec-side definition (spec.md section 3, MomentumScore): the compounded
return over the trailing `days`-element tail slice, compounded as
the product of (1 + r) minus 1. Used to compare the code's scorers with the
spec formula 12·R1 + 4·R3 + 2·R6 + 1·R12. -/
def compoundedReturn (days : ℕ) (rs : List ℚ) : ℚ :=
  ((pdTail days rs).map (fun r => 1 + r)).prod - 1

/-- Per-symbol data kept by both models: the symbol and its momentum score
(`SymbolData` in both modules, after `CalculateMomentumScore` ran). -/
structure SymbolData where
  Symbol : ℕ
  momentumScore : ℚ
deriving DecidableEq

namespace AlphaModel

/-- Alpha/LongOnlyMomentumAlphaCreation.py lines 188-207,
`CalculatePctAggressive`: the fraction of canary symbols whose computed
momentum score is positive, with the full canary-symbol count as
denominator. -/
def CalculatePctAggressive (calculations : List SymbolData) (canarySymbols : List ℕ) : ℚ :=
  let canaryPosMomList := calculations.filter
    (fun x => decide (0 < x.momentumScore) && decide (x.Symbol ∈ canarySymbols))
  (canaryPosMomList.length : ℚ) / (canarySymbols.length : ℚ)

end AlphaModel

namespace PortfolioModel

/-- Portfolio/OptimizationPortfolioConstruction.py lines 207-226,
`CalculatePctAggressive` (textually the same computation as the Alpha-model
version). -/
def CalculatePctAggressive (calculations : List SymbolData) (canarySymbols : List ℕ) : ℚ :=
  let canaryPosMomList := calculations.filter
    (fun x => decide (0 < x.momentumScore) && decide (x.Symbol ∈ canarySymbols))
  (canaryPosMomList.length : ℚ) / (canarySymbols.length : ℚ)

end PortfolioModel

/-- Spec-side count (spec.md section 4.2): the number of canary instruments
that have a computed momentum score and that score is positive. -/
def canaryPositiveCount (calculations : List SymbolData) (canarySymbols : List ℕ) : ℕ :=
  canarySymbols.countP
    (fun s => decide (∃ d ∈ calculations, d.Symbol = s ∧ 0 < d.momentumScore))

/-- Alpha/LongOnlyMomentumAlphaCreation.py lines 59-142 (`Update`, rebalance
branch): candidate selection.  `calculations` holds the per-symbol scores
that survived the data checks; `relevantSymbols` is risky + crash-protection;
the absolute-momentum filter keeps positive-score relevant symbols, the
relative-momentum step sorts them descending by score (Python `sorted` with
`reverse=True`, stable) and takes the top `topMomentum`; then the
crash-protection branches on `pctAggressive` run.  The result is the list of
candidate symbols (`[x.Symbol for x in self.topMomentumSecurities]`). -/
def selectCandidates (calculations : List SymbolData)
    (riskySymbols crashProtectionSymbol canarySymbols : List ℕ)
    (topMomentum : ℕ) : List ℕ :=
  let relevantSymbols := riskySymbols ++ crashProtectionSymbol
  let positiveMomentumSecurities := calculations.filter
    (fun x => decide (0 < x.momentumScore) && decide (x.Symbol ∈ relevantSymbols))
  let topMomentumSecurities :=
    (positiveMomentumSecurities.mergeSort
      (fun a b => decide (b.momentumScore ≤ a.momentumScore))).take topMomentum
  let pctAggressive := AlphaModel.CalculatePctAggressive calculations canarySymbols
  let positiveMomentumSymbols := positiveMomentumSecurities.map SymbolData.Symbol
  let topMomentumSymbols := topMomentumSecurities.map SymbolData.Symbol
  if pctAggressive = 0 then
    if crashProtectionSymbol.headI ∈ positiveMomentumSymbols then
      crashProtectionSymbol
    else []
  else if pctAggressive < 1 then
    if crashProtectionSymbol.headI ∈ positiveMomentumSymbols
        ∧ crashProtectionSymbol.headI ∉ topMomentumSymbols then
      topMomentumSymbols ++ [crashProtectionSymbol.headI]
    else topMomentumSymbols
  else topMomentumSymbols

/-- Portfolio/OptimizationPortfolioConstruction.py lines 263-270 (inside
`DetermineTargetPercent`): post-processing of the optimizer output.  Every
weight ≤ 1e-10 is snapped to exactly 0, and when the crash-protection symbol
has no entry in the weight series (`cpPresent = false`) it is appended with
weight 0. -/
def postProcessWeights (weights : List ℚ) (cpPresent : Bool) : List ℚ :=
  let snapped := weights.map (fun w => if w ≤ 1 / 10 ^ 10 then 0 else w)
  if cpPresent then snapped else snapped ++ [0]

/-- Alpha/LongOnlyMomentumAlphaCreation.py lines 183-186 (`OnSecuritiesChanged`,
removal loop): `if removed in self.securities: self.securities.remove(removed)`,
applied for each removed security in order; Python `list.remove` deletes the
first occurrence. -/
def applyRemovals (securities removedSecurities : List ℕ) : List ℕ :=
  removedSecurities.foldl
    (fun acc removed => if removed ∈ acc then acc.erase removed else acc) securities

/-- Alpha/LongOnlyMomentumAlphaCreation.py lines 169-186, `OnSecuritiesChanged`:
every added security is appended to the tracked list, then removals are
applied. -/
def OnSecuritiesChanged (securities addedSecurities removedSecurities : List ℕ) : List ℕ :=
  applyRemovals (securities ++ addedSecurities) removedSecurities

/-- QuantConnect Insight as used here: an Up prediction for one symbol with a
generation time and an expiry time (times as integers, UTC ticks). -/
structure Insight where
  Symbol : ℕ
  GeneratedTimeUtc : ℤ
  CloseTimeUtc : ℤ
deriving DecidableEq

/-- Mutable state of `OptimizationPortfolioConstructionModel` that the
`CreateTargets` fast path touches: the insight collection, the cached next
expiry time, and the rebalancing time (None before the first call). -/
structure PortfolioState where
  insightCollection : List Insight
  nextExpiryTime : ℤ
  rebalancingTime : Option ℤ
deriving DecidableEq

/-- Portfolio/OptimizationPortfolioConstruction.py lines 47-67
(`CreateTargets`, entry and steady-state fast path): initialise
`rebalancingTime` when it is None, then, if no insights arrived and the
current time has not passed `nextExpiryTime`, return the empty target list
without touching the insight collection.  The remainder of the method
(lines 69-188: insight ingestion, target computation, expiry purge) is
abstracted as the `rebalanceStep` continuation, which receives the state,
the time and the insights. -/
def CreateTargets (rebalancingPeriod : ℤ → ℤ)
    (rebalanceStep : PortfolioState → ℤ → List Insight → List (ℕ × ℚ) × PortfolioState)
    (s : PortfolioState) (utcTime : ℤ) (insights : List Insight) :
    List (ℕ × ℚ) × PortfolioState :=
  let s1 := if s.rebalancingTime = none then
      { s with rebalancingTime := some (rebalancingPeriod utcTime) }
    else s
  if insights.length = 0 ∧ utcTime ≤ s1.nextExpiryTime then ([], s1)
  else rebalanceStep s1 utcTime insights

/-- numpy/pandas mean of a series (sum divided by length). -/
noncomputable def npMean (xs : List ℝ) : ℝ := xs.sum / xs.length

/-- numpy sqrt: NaN (modelled as `none`) on negative input, the real square
root otherwise. -/
noncomputable def npSqrt (x : ℝ) : Option ℝ :=
  if x < 0 then none else some (Real.sqrt x)

/-- OptimizerModules/optimizer.py lines 67-97,
`CustomPortfolioOptimizer.ObjectiveFunction`.  `weights` is the weight
vector, `historicalLogReturns` the matrix of log-return columns, `covariance`
the covariance matrix.  The annualized portfolio standard deviation is
sqrt(wᵀ(Σ·252)w); when it compares equal to 0 a ValueError is raised
(modelled as `Except.error`); otherwise the selected objective value is
returned, with an error for an unknown selector.  A NaN standard deviation
(negative radicand) is `none` and compares unequal to 0, as in numpy. -/
noncomputable def ObjectiveFunction (n : ℕ) (objFunction : String)
    (weights : Fin n → ℝ) (historicalLogReturns : Fin n → List ℝ)
    (covariance : Fin n → Fin n → ℝ) : Except String (Option ℝ) :=
  let annualizedPortfolioReturns : ℝ :=
    ∑ i, npMean (historicalLogReturns i) * 252 * weights i
  let annualizedPortfolioStd : Option ℝ :=
    npSqrt (∑ i, weights i * ∑ j, covariance i j * 252 * weights j)
  if annualizedPortfolioStd = some 0 then
    Except.error "CustomPortfolioOptimizer.ObjectiveFunction: annualizedPortfolioStd cannot be zero"
  else
    let annualizedPortfolioSharpe : Option ℝ :=
      annualizedPortfolioStd.map (fun sd => annualizedPortfolioReturns / sd)
    if objFunction = "sharpe" then
      Except.ok (annualizedPortfolioSharpe.map (fun x => -x))
    else if objFunction = "return" then
      Except.ok (some (-annualizedPortfolioReturns))
    else if objFunction = "std" then
      Except.ok annualizedPortfolioStd
    else
      Except.error "CustomPortfolioOptimizer.ObjectiveFunction: objFunction input has to be one of sharpe, return or std"

/-- Portfolio/OptimizationPortfolioConstruction.py line 242: the log-return
columns `np.log(1 + returnSeries)` of the candidate symbols. -/
noncomputable def logReturnsDf (n : ℕ) (returnSeries : Fin n → List ℝ) :
    Fin n → List ℝ :=
  fun i => (returnSeries i).map (fun r => Real.log (1 + r))

/-- Sum of products of deviations from the means, the common numerator of
pandas covariance/correlation/variance of two equally long series. -/
noncomputable def covSum (xs ys : List ℝ) : ℝ :=
  (List.zipWith (fun a b => a * b)
    (xs.map (fun x => x - npMean xs))
    (ys.map (fun y => y - npMean ys))).sum

/-- pandas `DataFrame.corr()` entry (Pearson): the deviation-product sum
normalised by the square roots of the two deviation-square sums (the sample
1/(n-1) factors cancel). -/
noncomputable def pearsonCorr (xs ys : List ℝ) : ℝ :=
  covSum xs ys / (Real.sqrt (covSum xs xs) * Real.sqrt (covSum ys ys))

/-- pandas `Series.std()` (sample standard deviation, ddof = 1). -/
noncomputable def pdStd (xs : List ℝ) : ℝ :=
  Real.sqrt (covSum xs xs / ((xs.length : ℝ) - 1))

/-- Portfolio/OptimizationPortfolioConstruction.py line 246: the blended
correlation matrix
`(tail(21).corr()*12 + tail(63).corr()*4 + tail(126).corr()*2 + tail(252).corr())/19`
over the log-return columns. -/
noncomputable def corrMatrix (n : ℕ) (returnSeries : Fin n → List ℝ)
    (i j : Fin n) : ℝ :=
  let lr := logReturnsDf n returnSeries
  (pearsonCorr (pdTail 21 (lr i)) (pdTail 21 (lr j)) * 12
    + pearsonCorr (pdTail 63 (lr i)) (pdTail 63 (lr j)) * 4
    + pearsonCorr (pdTail 126 (lr i)) (pdTail 126 (lr j)) * 2
    + pearsonCorr (pdTail 252 (lr i)) (pdTail 252 (lr j))) / 19

/-- Portfolio/OptimizationPortfolioConstruction.py line 249: the column
vector of 21-day-tail standard deviations (`logReturnsDf.tail(21).std()`). -/
noncomputable def stdVector (n : ℕ) (returnSeries : Fin n → List ℝ)
    (i : Fin n) : ℝ :=
  pdStd (pdTail 21 (logReturnsDf n returnSeries i))

/-- Portfolio/OptimizationPortfolioConstruction.py lines 251-254: the dot
product of the standard-deviation column vector with its transpose; entry
(i, j) is std i · std j. -/
noncomputable def volMatrix (n : ℕ) (returnSeries : Fin n → List ℝ)
    (i j : Fin n) : ℝ :=
  stdVector n returnSeries i * stdVector n returnSeries j

/-- Portfolio/OptimizationPortfolioConstruction.py line 257: the covariance
matrix, the elementwise product `corrMatrix.multiply(volMatrix)`. -/
noncomputable def covMatrix (n : ℕ) (returnSeries : Fin n → List ℝ)
    (i j : Fin n) : ℝ :=
  corrMatrix n returnSeries i j * volMatrix n returnSeries i j

end KDA

namespace KDA

/-- Claim C1: for every return series, the momentum score computed by
`CalculateMomentumScore` equals 12·R1 + 4·R3 + 2·R6 + 1·R12, where Rk is
the compounded return (product of (1+r) minus 1) over the trailing
21/63/126/252-element tail slice, and the Alpha-model and Portfolio-model
implementations agree. -/
theorem momentumScore_eq_weighted_compounded_returns (rs : List ℚ) :
    AlphaModel.CalculateMomentumScore rs
        = 12 * compoundedReturn 21 rs + 4 * compoundedReturn 63 rs
          + 2 * compoundedReturn 126 rs + 1 * compoundedReturn 252 rs
    ∧ PortfolioModel.CalculateMomentumScore rs
        = AlphaModel.CalculateMomentumScore rs := by
  have hmap : ∀ xs : List ℚ, xs.map (fun r => 1 + r) = xs.map (fun r => r + 1) :=
    fun xs => List.map_congr_left fun r _ => add_comm 1 r
  constructor
  · simp only [AlphaModel.CalculateMomentumScore, compoundedReturn, hmap]
    ring
  · rfl

theorem covSum_comm (xs ys : List ℝ) : covSum xs ys = covSum ys xs := by
  unfold covSum
  rw [List.zipWith_comm_of_comm _ mul_comm]

theorem pearsonCorr_comm (xs ys : List ℝ) : pearsonCorr xs ys = pearsonCorr ys xs := by
  unfold pearsonCorr
  rw [covSum_comm xs ys, mul_comm]

/-- Claim C2: the covariance matrix built by `DetermineTargetPercent` is the
elementwise product of the blended correlation matrix
(12·C21 + 4·C63 + 2·C126 + C252)/19 with the outer product of the 21-day
tail standard-deviation vector, and it is symmetric. -/
theorem covMatrix_blend_outer_and_symm (n : ℕ) (returnSeries : Fin n → List ℝ)
    (i j : Fin n) :
    covMatrix n returnSeries i j
        = ((12 * pearsonCorr (pdTail 21 (logReturnsDf n returnSeries i))
                             (pdTail 21 (logReturnsDf n returnSeries j))
            + 4 * pearsonCorr (pdTail 63 (logReturnsDf n returnSeries i))
                              (pdTail 63 (logReturnsDf n returnSeries j))
            + 2 * pearsonCorr (pdTail 126 (logReturnsDf n returnSeries i))
                              (pdTail 126 (logReturnsDf n returnSeries j))
            + pearsonCorr (pdTail 252 (logReturnsDf n returnSeries i))
                          (pdTail 252 (logReturnsDf n returnSeries j))) / 19)
          * (pdStd (pdTail 21 (logReturnsDf n returnSeries i))
              * pdStd (pdTail 21 (logReturnsDf n returnSeries j)))
    ∧ covMatrix n returnSeries i j = covMatrix n returnSeries j i := by
  constructor
  · simp only [covMatrix, corrMatrix, volMatrix, stdVector]
    ring
  · simp only [covMatrix, corrMatrix, volMatrix, stdVector]
    rw [pearsonCorr_comm (pdTail 21 (logReturnsDf n returnSeries i)),
      pearsonCorr_comm (pdTail 63 (logReturnsDf n returnSeries i)),
      pearsonCorr_comm (pdTail 126 (logReturnsDf n returnSeries i)),
      pearsonCorr_comm (pdTail 252 (logReturnsDf n returnSeries i))]
    ring

end KDA

namespace KDA

theorem npSqrt_eq_some_zero_iff (q : ℝ) : npSqrt q = some 0 ↔ q = 0 := by
  unfold npSqrt
  by_cases h : q < 0
  · simp only [if_pos h]
    constructor
    · intro hc; exact absurd hc (by simp)
    · intro hq; exact absurd (hq ▸ h) (lt_irrefl 0)
  · push_neg at h
    rw [if_neg (not_lt.mpr h)]
    simp only [Option.some_inj, Real.sqrt_eq_zero']
    exact ⟨fun hle => le_antisymm hle h, fun he => le_of_eq he⟩

theorem snappedWeights_sum_le (ws : List ℚ) (h0 : ∀ w ∈ ws, 0 ≤ w) :
    ws.sum - (ws.length : ℚ) * (1 / 10 ^ 10)
        ≤ (ws.map (fun w => if w ≤ 1 / 10 ^ 10 then 0 else w)).sum
    ∧ (ws.map (fun w => if w ≤ 1 / 10 ^ 10 then 0 else w)).sum ≤ ws.sum := by
  have he : (0 : ℚ) ≤ 1 / 10 ^ 10 := by norm_num
  induction ws with
  | nil => simp
  | cons w ws ih =>
    obtain ⟨ih1, ih2⟩ := ih (fun x hx => h0 x (List.mem_cons_of_mem _ hx))
    have hw : 0 ≤ w := h0 w (List.mem_cons_self _ _)
    by_cases hsnap : w ≤ 1 / 10 ^ 10
    · simp only [List.map_cons, List.sum_cons, if_pos hsnap, List.length_cons]
      push_cast
      constructor
      · linarith
      · linarith
    · simp only [List.map_cons, List.sum_cons, if_neg hsnap, List.length_cons]
      push_cast
      constructor
      · linarith
      · linarith

theorem length_filter_canary (A : List SymbolData) (C : List ℕ)
    (hA : (A.map SymbolData.Symbol).Nodup) (hC : C.Nodup) :
    (A.filter (fun x => decide (0 < x.momentumScore) && decide (x.Symbol ∈ C))).length
      = canaryPositiveCount A C := by
  have hF : ((A.filter (fun x => decide (0 < x.momentumScore)
      && decide (x.Symbol ∈ C))).map SymbolData.Symbol).Nodup :=
    List.Nodup.sublist (List.Sublist.map _ (List.filter_sublist A)) hA
  have h1 : (A.filter (fun x => decide (0 < x.momentumScore)
        && decide (x.Symbol ∈ C))).length
      = ((A.filter (fun x => decide (0 < x.momentumScore)
        && decide (x.Symbol ∈ C))).map SymbolData.Symbol).toFinset.card := by
    rw [List.toFinset_card_of_nodup hF, List.length_map]
  have h2 : canaryPositiveCount A C
      = (C.filter (fun s => decide (∃ d ∈ A, d.Symbol = s ∧ 0 < d.momentumScore))).toFinset.card := by
    rw [canaryPositiveCount, List.countP_eq_length_filter,
      List.toFinset_card_of_nodup (hC.filter _)]
  rw [h1, h2]
  congr 1
  ext s
  simp only [List.mem_toFinset, List.mem_map, List.mem_filter, Bool.and_eq_true,
    decide_eq_true_eq]
  constructor
  · rintro ⟨d, ⟨hdA, hpos, hdC⟩, rfl⟩
    exact ⟨hdC, ⟨d, hdA, rfl, hpos⟩⟩
  · rintro ⟨hsC, ⟨d, hdA, hds, hpos⟩⟩
    exact ⟨d, ⟨hdA, hpos, by rw [hds]; exact hsC⟩, hds⟩

theorem length_filter_canary_le (A : List SymbolData) (C : List ℕ)
    (hA : (A.map SymbolData.Symbol).Nodup) :
    (A.filter (fun x => decide (0 < x.momentumScore) && decide (x.Symbol ∈ C))).length
      ≤ C.length := by
  have hF : ((A.filter (fun x => decide (0 < x.momentumScore)
      && decide (x.Symbol ∈ C))).map SymbolData.Symbol).Nodup :=
    List.Nodup.sublist (List.Sublist.map _ (List.filter_sublist A)) hA
  have hsub : (A.filter (fun x => decide (0 < x.momentumScore)
      && decide (x.Symbol ∈ C))).map SymbolData.Symbol ⊆ C := by
    intro s hs
    obtain ⟨d, hd, rfl⟩ := List.mem_map.mp hs
    have hp := (List.mem_filter.mp hd).2
    simp only [Bool.and_eq_true, decide_eq_true_eq] at hp
    exact hp.2
  calc (A.filter (fun x => decide (0 < x.momentumScore)
        && decide (x.Symbol ∈ C))).length
      = ((A.filter (fun x => decide (0 < x.momentumScore)
        && decide (x.Symbol ∈ C))).map SymbolData.Symbol).length :=
        (List.length_map _ _).symm
    _ ≤ C.length := (List.subperm_of_subset hF hsub).length_le

theorem mem_top_filter {A : List SymbolData} {le : SymbolData → SymbolData → Bool}
    {k : ℕ} {P : SymbolData → Bool} {d : SymbolData}
    (hd : d ∈ ((A.filter P).mergeSort le).take k) : d ∈ A.filter P :=
  (List.mergeSort_perm (A.filter P) le).subset (List.take_subset _ _ hd)

theorem applyRemovals_eq_filter (R l : List ℕ) (hl : l.Nodup) :
    applyRemovals l R = l.filter (fun x => decide (x ∉ R)) := by
  induction R generalizing l with
  | nil =>
    rw [applyRemovals]
    simp [List.filter_eq_self]
  | cons r R ih =>
    have hstep : (if r ∈ l then l.erase r else l)
        = l.filter (fun x => decide (x ≠ r)) := by
      by_cases hr : r ∈ l
      · rw [if_pos hr, List.Nodup.erase_eq_filter hl]
        apply List.filter_congr
        intro a _
        simp [bne, Bool.beq_eq_decide_eq]
      · rw [if_neg hr]
        symm
        rw [List.filter_eq_self]
        intro a ha
        simp only [decide_eq_true_eq]
        exact fun h => hr (h ▸ ha)
    have hnd : (l.filter (fun x => decide (x ≠ r))).Nodup := hl.filter _
    calc applyRemovals l (r :: R)
        = applyRemovals (l.filter (fun x => decide (x ≠ r))) R := by
          rw [applyRemovals, applyRemovals, List.foldl_cons, hstep]
      _ = (l.filter (fun x => decide (x ≠ r))).filter (fun x => decide (x ∉ R)) :=
          ih _ hnd
      _ = l.filter (fun x => decide (x ∉ r :: R)) := by
          rw [List.filter_filter]
          apply List.filter_congr
          intro a _
          simp [List.mem_cons, not_or, Bool.and_comm]

end KDA

namespace KDA

/-- Counterexample to claim C3 as stated: a weight vector that satisfies the
optimizer constraints exactly (every entry in [0, 1], entries summing to
exactly 1) on which the snap-to-zero post-processing of
`DetermineTargetPercent` moves the sum outside the ±1e-6 tolerance — the
claim quantifies over every optimization input, but with more than 10^4
instruments the snapped mass can exceed 1e-6. -/
theorem postProcessWeights_tolerance_counterexample :
    ((List.replicate (10 ^ 10) ((1 : ℚ) / 10 ^ 10) ≠ [])
      ∧ (∀ w ∈ List.replicate (10 ^ 10) ((1 : ℚ) / 10 ^ 10), 0 ≤ w ∧ w ≤ 1)
      ∧ (List.replicate (10 ^ 10) ((1 : ℚ) / 10 ^ 10)).sum = 1)
    ∧ ¬ |(postProcessWeights (List.replicate (10 ^ 10) ((1 : ℚ) / 10 ^ 10)) true).sum
          - 1| ≤ 1 / 10 ^ 6 := by
  refine ⟨⟨?_, ?_, ?_⟩, ?_⟩
  · intro h
    have hlen := congrArg List.length h
    rw [List.length_replicate, List.length_nil] at hlen
    norm_num at hlen
  · intro w hw
    rw [List.eq_of_mem_replicate hw]
    norm_num
  · rw [List.sum_replicate, nsmul_eq_mul]
    norm_num
  · have hpp : (postProcessWeights (List.replicate (10 ^ 10) ((1 : ℚ) / 10 ^ 10)) true).sum
        = 0 := by
      show (List.map (fun w => if w ≤ 1 / 10 ^ 10 then 0 else w)
        (List.replicate (10 ^ 10) ((1 : ℚ) / 10 ^ 10))).sum = 0
      rw [List.map_replicate, if_pos (le_refl ((1 : ℚ) / 10 ^ 10)), List.sum_replicate,
        smul_zero]
    rw [hpp]
    norm_num

/-- Claim C3 (amended): given an optimizer output that satisfies the solver
contract exactly (weights within the box bounds [minWeight, maxWeight] with
minWeight = 0 as configured in OptimizationPortfolioConstruction.py line 41,
summing to 1) for at most 10^4 instruments, the post-processed weights
(snap-to-zero of weights ≤ 1e-10, crash-protection inserted with weight 0
when absent) sum to 1 within ±1e-6 and stay within the box bounds. -/
theorem postProcessWeights_sum_and_bounds (weights : List ℚ) (cpPresent : Bool)
    (minWeight maxWeight : ℚ) (hmin : minWeight = 0) (hne : weights ≠ [])
    (hb : ∀ w ∈ weights, minWeight ≤ w ∧ w ≤ maxWeight)
    (hsum : weights.sum = 1) (hlen : weights.length ≤ 10000) :
    |(postProcessWeights weights cpPresent).sum - 1| ≤ 1 / 10 ^ 6
    ∧ ∀ w ∈ postProcessWeights weights cpPresent, minWeight ≤ w ∧ w ≤ maxWeight := by
  subst hmin
  have h0 : ∀ w ∈ weights, 0 ≤ w := fun w hw => (hb w hw).1
  obtain ⟨hle1, hle2⟩ := snappedWeights_sum_le weights h0
  have hmaxw : 0 ≤ maxWeight := by
    obtain ⟨w0, hw0⟩ := List.exists_mem_of_ne_nil weights hne
    exact le_trans (hb w0 hw0).1 (hb w0 hw0).2
  have hsum' : (postProcessWeights weights cpPresent).sum
      = (weights.map (fun w => if w ≤ 1 / 10 ^ 10 then 0 else w)).sum := by
    unfold postProcessWeights
    cases cpPresent <;> simp
  have hmem : ∀ w ∈ weights.map (fun w => if w ≤ 1 / 10 ^ 10 then 0 else w),
      0 ≤ w ∧ w ≤ maxWeight := by
    intro w hw
    obtain ⟨x, hx, rfl⟩ := List.mem_map.mp hw
    by_cases hx' : x ≤ 1 / 10 ^ 10
    · rw [if_pos hx']
      exact ⟨le_refl 0, hmaxw⟩
    · rw [if_neg hx']
      exact hb x hx
  constructor
  · rw [hsum', abs_le]
    have hcast : (weights.length : ℚ) ≤ 10000 := by exact_mod_cast hlen
    have hmul : (weights.length : ℚ) * (1 / 10 ^ 10) ≤ 10000 * (1 / 10 ^ 10) :=
      mul_le_mul_of_nonneg_right hcast (by norm_num)
    have heq : (10000 : ℚ) * (1 / 10 ^ 10) = 1 / 10 ^ 6 := by norm_num
    constructor
    · linarith
    · linarith
  · intro w hw
    unfold postProcessWeights at hw
    cases cpPresent with
    | true =>
      simp only [Bool.false_eq_true, if_false, if_true] at hw
      exact hmem w hw
    | false =>
      simp only [Bool.false_eq_true, if_false, if_true] at hw
      rcases List.mem_append.mp hw with hw | hw
      · exact hmem w hw
      · rw [List.mem_singleton.mp hw]
        exact ⟨le_refl 0, hmaxw⟩

/-- Witness for the amended claim C3 at a concrete solver output. -/
theorem postProcessWeights_sum_and_bounds_witness :
    |(postProcessWeights [1 / 2, 1 / 2] false).sum - 1| ≤ 1 / 10 ^ 6 :=
  (postProcessWeights_sum_and_bounds [1 / 2, 1 / 2] false 0 1 rfl
    (List.cons_ne_nil _ _)
    (by
      intro w hw
      rw [List.mem_cons, List.mem_singleton] at hw
      rcases hw with rfl | rfl <;> norm_num)
    (by norm_num [List.sum_cons, List.sum_nil])
    (by norm_num [List.length_cons, List.length_nil])).1

/-- Claim C4: for a valid objective selector, `ObjectiveFunction` raises
(returns a hard `Except.error`, which the caller does not catch — there is
no fallback to equal weights) exactly when the annualized portfolio standard
deviation sqrt(wᵀ(Σ·252)w) compares equal to zero, which happens exactly
when the quadratic form wᵀ(Σ·252)w is exactly zero; no other weight vector
makes it raise (a negative quadratic form yields NaN, which does not compare
equal to zero). -/
theorem objectiveFunction_error_iff_zero_std (n : ℕ) (objFunction : String)
    (weights : Fin n → ℝ) (historicalLogReturns : Fin n → List ℝ)
    (covariance : Fin n → Fin n → ℝ)
    (hobj : objFunction = "sharpe" ∨ objFunction = "return" ∨ objFunction = "std") :
    ((∃ e, ObjectiveFunction n objFunction weights historicalLogReturns covariance
        = Except.error e)
      ↔ (∑ i, weights i * ∑ j, covariance i j * 252 * weights j) = 0)
    ∧ (npSqrt (∑ i, weights i * ∑ j, covariance i j * 252 * weights j) = some 0
      ↔ (∑ i, weights i * ∑ j, covariance i j * 252 * weights j) = 0) := by
  refine ⟨?_, npSqrt_eq_some_zero_iff _⟩
  simp only [ObjectiveFunction]
  by_cases hstd : npSqrt (∑ i, weights i * ∑ j, covariance i j * 252 * weights j)
      = some 0
  · rw [if_pos hstd]
    constructor
    · intro _
      exact (npSqrt_eq_some_zero_iff _).mp hstd
    · intro _
      exact ⟨_, rfl⟩
  · rw [if_neg hstd]
    constructor
    · intro he
      obtain ⟨e, he⟩ := he
      rcases hobj with h | h | h <;> subst h <;> simp at he
    · intro hq0
      exact absurd ((npSqrt_eq_some_zero_iff _).mpr hq0) hstd

/-- Witness for claim C4: with one instrument, zero covariance and the std
objective the function raises. -/
theorem objectiveFunction_error_iff_zero_std_witness :
    ∃ e, ObjectiveFunction 1 "std" (fun _ => 1) (fun _ => [])
        (fun _ _ => 0) = Except.error e := by
  refine ((objectiveFunction_error_iff_zero_std 1 "std" (fun _ => 1) (fun _ => [])
    (fun _ _ => 0) (Or.inr (Or.inr rfl))).1).mpr ?_
  simp

end KDA

namespace KDA

/-- Claim C5: the regime-gate aggressiveness fraction equals
(number of canary instruments with positive momentum score) / (number of
canary instruments) exactly, lies in {0, 1/n, ..., 1}, equals 0.5 for
2 canaries with exactly 1 positive, and the Alpha-model and Portfolio-model
implementations agree. -/
theorem pctAggressive_count_formula (calculations : List SymbolData)
    (canarySymbols : List ℕ) (hcan : canarySymbols ≠ [])
    (hC : canarySymbols.Nodup)
    (hA : (calculations.map SymbolData.Symbol).Nodup) :
    (AlphaModel.CalculatePctAggressive calculations canarySymbols
        = (canaryPositiveCount calculations canarySymbols : ℚ) / (canarySymbols.length : ℚ))
    ∧ (∃ k ≤ canarySymbols.length,
        AlphaModel.CalculatePctAggressive calculations canarySymbols
          = (k : ℚ) / (canarySymbols.length : ℚ))
    ∧ (canarySymbols.length = 2 → canaryPositiveCount calculations canarySymbols = 1
        → AlphaModel.CalculatePctAggressive calculations canarySymbols = 1 / 2)
    ∧ PortfolioModel.CalculatePctAggressive calculations canarySymbols
        = AlphaModel.CalculatePctAggressive calculations canarySymbols := by
  have hform : AlphaModel.CalculatePctAggressive calculations canarySymbols
      = (canaryPositiveCount calculations canarySymbols : ℚ) / (canarySymbols.length : ℚ) := by
    simp only [AlphaModel.CalculatePctAggressive]
    rw [length_filter_canary calculations canarySymbols hA hC]
  refine ⟨hform, ⟨canaryPositiveCount calculations canarySymbols, ?_, hform⟩, ?_, rfl⟩
  · rw [← length_filter_canary calculations canarySymbols hA hC]
    exact length_filter_canary_le calculations canarySymbols hA
  · intro h2 h1
    rw [hform, h1, h2]
    norm_num

/-- Witness for claim C5: two canaries, exactly one positive, fraction 0.5. -/
theorem pctAggressive_count_formula_witness :
    AlphaModel.CalculatePctAggressive [SymbolData.mk 1 3, SymbolData.mk 2 (-2)] [1, 2]
      = 1 / 2 :=
  (pctAggressive_count_formula [SymbolData.mk 1 3, SymbolData.mk 2 (-2)] [1, 2]
    (List.cons_ne_nil _ _) (by decide) (by decide)).2.2.1 (by decide) (by decide)

/-- Claim C10: the aggressiveness fraction always divides by the total number
of configured canary symbols (never renormalized), counts only canaries with
a computed positive score in the numerator (an excluded canary counts as
non-positive), and excluding entries from the calculations can only lower or
preserve the fraction; the two implementations agree. -/
theorem pctAggressive_excluded_canary (calculations calculationsAfterExclusion : List SymbolData)
    (canarySymbols : List ℕ) (hcan : canarySymbols ≠ [])
    (hC : canarySymbols.Nodup)
    (hA : (calculations.map SymbolData.Symbol).Nodup)
    (hsub : calculationsAfterExclusion.Sublist calculations) :
    (AlphaModel.CalculatePctAggressive calculations canarySymbols
        = (canaryPositiveCount calculations canarySymbols : ℚ) / (canarySymbols.length : ℚ))
    ∧ AlphaModel.CalculatePctAggressive calculationsAfterExclusion canarySymbols
        ≤ AlphaModel.CalculatePctAggressive calculations canarySymbols
    ∧ PortfolioModel.CalculatePctAggressive calculations canarySymbols
        = AlphaModel.CalculatePctAggressive calculations canarySymbols := by
  refine ⟨?_, ?_, rfl⟩
  · simp only [AlphaModel.CalculatePctAggressive]
    rw [length_filter_canary calculations canarySymbols hA hC]
  · simp only [AlphaModel.CalculatePctAggressive]
    have hn : (0 : ℚ) < (canarySymbols.length : ℚ) := by
      cases canarySymbols with
      | nil => exact absurd rfl hcan
      | cons a l =>
        have h : 0 < (a :: l).length := Nat.succ_pos _
        exact_mod_cast h
    refine (div_le_div_iff_of_pos_right hn).mpr ?_
    exact_mod_cast (hsub.filter _).length_le

/-- Witness for claim C10: excluding a positive canary lowers the fraction. -/
theorem pctAggressive_excluded_canary_witness :
    AlphaModel.CalculatePctAggressive [SymbolData.mk 1 3] [1, 2]
      ≤ AlphaModel.CalculatePctAggressive [SymbolData.mk 1 3, SymbolData.mk 2 5] [1, 2] :=
  (pctAggressive_excluded_canary [SymbolData.mk 1 3, SymbolData.mk 2 5] [SymbolData.mk 1 3]
    [1, 2] (List.cons_ne_nil _ _) (by decide) (by decide)
    ((List.nil_sublist _).cons₂ _)).2.1

/-- Claim C6: every candidate selected at a rebalance has a strictly positive
momentum score in the calculations, so the candidate set never contains an
instrument with score ≤ 0 — in particular also in the crash-protection
injection cases, which test positive momentum before injecting. -/
theorem selectCandidates_positive_momentum (calculations : List SymbolData)
    (riskySymbols canarySymbols : List ℕ) (c topMomentum : ℕ)
    (hcan : canarySymbols ≠ []) :
    ∀ s ∈ selectCandidates calculations riskySymbols [c] canarySymbols topMomentum,
      ∃ d ∈ calculations, d.Symbol = s ∧ 0 < d.momentumScore := by
  intro s hs
  have hpos : ∀ t, t ∈ (calculations.filter
      (fun x => decide (0 < x.momentumScore)
        && decide (x.Symbol ∈ riskySymbols ++ [c]))).map SymbolData.Symbol →
      ∃ d ∈ calculations, d.Symbol = t ∧ 0 < d.momentumScore := by
    intro t ht
    obtain ⟨d, hd, rfl⟩ := List.mem_map.mp ht
    obtain ⟨hdA, hdP⟩ := List.mem_filter.mp hd
    simp only [Bool.and_eq_true, decide_eq_true_eq] at hdP
    exact ⟨d, hdA, rfl, hdP.1⟩
  simp only [selectCandidates] at hs
  split at hs
  · split at hs
    · rename_i hguard
      rw [List.mem_singleton] at hs
      subst hs
      exact hpos _ hguard
    · exact absurd hs (List.not_mem_nil s)
  · split at hs
    · split at hs
      · rename_i hguard
        rcases List.mem_append.mp hs with hs | hs
        · obtain ⟨d, hd, rfl⟩ := List.mem_map.mp hs
          exact hpos _ (List.mem_map.mpr ⟨d, mem_top_filter hd, rfl⟩)
        · rw [List.mem_singleton] at hs
          subst hs
          exact hpos _ hguard.1
      · obtain ⟨d, hd, rfl⟩ := List.mem_map.mp hs
        exact hpos _ (List.mem_map.mpr ⟨d, mem_top_filter hd, rfl⟩)
    · obtain ⟨d, hd, rfl⟩ := List.mem_map.mp hs
      exact hpos _ (List.mem_map.mpr ⟨d, mem_top_filter hd, rfl⟩)

/-- Witness for claim C6: the crash-protection injection case at
aggressiveness 0 still selects only a positive-momentum instrument. -/
theorem selectCandidates_positive_momentum_witness :
    ∃ d ∈ [SymbolData.mk 9 2], d.Symbol = 9 ∧ 0 < d.momentumScore := by
  refine selectCandidates_positive_momentum [SymbolData.mk 9 2] [] [7] 9 5
    (List.cons_ne_nil _ _) 9 ?_
  norm_num [selectCandidates, AlphaModel.CalculatePctAggressive, List.filter]

/-- Claim C7: when the aggressiveness fraction is 0, the candidate set is
exactly the crash-protection singleton when the crash-protection instrument
has a computed positive momentum score, and empty otherwise. -/
theorem selectCandidates_pct_zero (calculations : List SymbolData)
    (riskySymbols canarySymbols : List ℕ) (c topMomentum : ℕ)
    (hcan : canarySymbols ≠ [])
    (hpct : AlphaModel.CalculatePctAggressive calculations canarySymbols = 0) :
    selectCandidates calculations riskySymbols [c] canarySymbols topMomentum
      = if ∃ d ∈ calculations, d.Symbol = c ∧ 0 < d.momentumScore then [c] else [] := by
  simp only [selectCandidates]
  rw [if_pos hpct]
  by_cases h : ∃ d ∈ calculations, d.Symbol = c ∧ 0 < d.momentumScore
  · rw [if_pos h]
    obtain ⟨d, hd, hdc, hdpos⟩ := h
    have hc : List.headI [c] ∈ (calculations.filter
        (fun x => decide (0 < x.momentumScore)
          && decide (x.Symbol ∈ riskySymbols ++ [c]))).map SymbolData.Symbol := by
      refine List.mem_map.mpr ⟨d, List.mem_filter.mpr ⟨hd, ?_⟩, hdc⟩
      simp only [Bool.and_eq_true, decide_eq_true_eq]
      refine ⟨hdpos, ?_⟩
      rw [hdc]
      exact List.mem_append_right _ (List.mem_singleton.mpr rfl)
    rw [if_pos hc]
  · rw [if_neg h]
    have hc : List.headI [c] ∉ (calculations.filter
        (fun x => decide (0 < x.momentumScore)
          && decide (x.Symbol ∈ riskySymbols ++ [c]))).map SymbolData.Symbol := by
      intro hmem
      obtain ⟨d, hd, hdc⟩ := List.mem_map.mp hmem
      obtain ⟨hdA, hdP⟩ := List.mem_filter.mp hd
      simp only [Bool.and_eq_true, decide_eq_true_eq] at hdP
      exact h ⟨d, hdA, hdc, hdP.1⟩
    rw [if_neg hc]

/-- Witness for claim C7: aggressiveness 0 with a positive-momentum
crash-protection instrument yields exactly the singleton. -/
theorem selectCandidates_pct_zero_witness :
    selectCandidates [SymbolData.mk 9 1] [] [9] [7] 5 = [9] := by
  have h : ∃ d ∈ [SymbolData.mk 9 1], d.Symbol = 9 ∧ 0 < d.momentumScore :=
    ⟨SymbolData.mk 9 1, List.mem_singleton.mpr rfl, rfl, by norm_num⟩
  rw [selectCandidates_pct_zero [SymbolData.mk 9 1] [] [7] 9 5 (List.cons_ne_nil _ _)
    (by norm_num [AlphaModel.CalculatePctAggressive, List.filter]), if_pos h]

/-- Claim C8: on a step with no incoming insights whose time has not passed
the stored next expiry time, `CreateTargets` returns the empty target list
and leaves the insight store (and the cached next expiry time) unchanged,
whatever the rebalance continuation would do. -/
theorem createTargets_noop (rebalancingPeriod : ℤ → ℤ)
    (rebalanceStep : PortfolioState → ℤ → List Insight → List (ℕ × ℚ) × PortfolioState)
    (s : PortfolioState) (utcTime : ℤ) (insights : List Insight)
    (hins : insights = []) (hexp : utcTime ≤ s.nextExpiryTime) :
    (CreateTargets rebalancingPeriod rebalanceStep s utcTime insights).1 = []
    ∧ (CreateTargets rebalancingPeriod rebalanceStep s utcTime insights).2.insightCollection
        = s.insightCollection
    ∧ (CreateTargets rebalancingPeriod rebalanceStep s utcTime insights).2.nextExpiryTime
        = s.nextExpiryTime := by
  subst hins
  obtain ⟨ic, net, rt⟩ := s
  simp only at hexp
  cases rt with
  | none => simp [CreateTargets, hexp]
  | some t => simp [CreateTargets, hexp]

/-- Witness for claim C8 on a concrete state and continuation. -/
theorem createTargets_noop_witness :
    (CreateTargets (fun t => t + 30) (fun s1 _ _ => ([(1, (1 : ℚ))], s1))
        (PortfolioState.mk [] 100 none) 50 []).1 = []
    ∧ (CreateTargets (fun t => t + 30) (fun s1 _ _ => ([(1, (1 : ℚ))], s1))
        (PortfolioState.mk [] 100 none) 50 []).2.insightCollection = []
    ∧ (CreateTargets (fun t => t + 30) (fun s1 _ _ => ([(1, (1 : ℚ))], s1))
        (PortfolioState.mk [] 100 none) 50 []).2.nextExpiryTime = 100 :=
  createTargets_noop (fun t => t + 30) (fun s1 _ _ => ([(1, (1 : ℚ))], s1))
    (PortfolioState.mk [] 100 none) 50 [] rfl (by decide)

/-- Counterexample to claim C9 as stated: applying the same universe change
event twice is not idempotent, because `OnSecuritiesChanged` appends added
securities unconditionally — adding the same security in two consecutive
applications duplicates it. -/
theorem onSecuritiesChanged_not_idempotent :
    OnSecuritiesChanged (OnSecuritiesChanged [] [0] []) [0] []
      ≠ OnSecuritiesChanged [] [0] [] := by decide

/-- Claim C9 (amended): applying a change event consisting only of removals
to a duplicate-free tracked list is idempotent; with a non-empty added set
idempotence fails because additions are appended unconditionally. -/
theorem onSecuritiesChanged_removals_idempotent (securities removedSecurities : List ℕ)
    (hnd : securities.Nodup) :
    OnSecuritiesChanged (OnSecuritiesChanged securities [] removedSecurities)
        [] removedSecurities
      = OnSecuritiesChanged securities [] removedSecurities := by
  simp only [OnSecuritiesChanged, List.append_nil]
  rw [applyRemovals_eq_filter _ _ hnd, applyRemovals_eq_filter _ _ (hnd.filter _),
    List.filter_filter]
  apply List.filter_congr
  intro a _
  rw [Bool.and_self]

/-- Witness for the amended claim C9 on a concrete removal event. -/
theorem onSecuritiesChanged_removals_idempotent_witness :
    OnSecuritiesChanged (OnSecuritiesChanged [1, 2] [] [2]) [] [2]
      = OnSecuritiesChanged [1, 2] [] [2] :=
  onSecuritiesChanged_removals_idempotent [1, 2] [2] (by decide)

end KDA
